import Mathlib

/-!
# PolarManager — verification of the core supervision logic

Shallow embedding of `src/core/manager.py`, `src/core/models.py` and
`src/adapters/process_adapter.py` of the PolarManager repository.

Conventions of the embedding:

* Python `float` wall-clock timestamps (`time.time()`) are modelled as `Int`
  seconds; every operation that reads the clock takes the current time `now`
  as an explicit argument.
* The OS process behind `ProcessAdapter` is modelled by its observable state:
  `proc = none` — no process was ever spawned; `proc = some none` — a spawned
  process that is still running (`returncode is None`); `proc = some (some c)`
  — a spawned process that exited with code `c`.  Whether an actual spawn
  succeeds, and the exit code produced by terminating a process, are external
  facts and are passed in as oracle arguments (`spawnOk`, `stopRc`).
* Python exceptions that propagate out of an operation while leaving the
  partial mutations behind are modelled by returning the partially mutated
  state together with an `Option` error.
* Event payload dictionaries are association lists from string keys to values.
* Log lines and log keywords are `List Char`, so that Python's substring test
  `kw in line` can be modelled executably (`strContains`).
-/

/-- `ServerStatus` from `src/core/models.py`. -/
inductive ServerStatus where
  | stopped
  | starting
  | running
  | stopping
  | crashed
  | updating
  | degraded
  deriving DecidableEq, Repr

/-- The `.value` string of a `ServerStatus` member. -/
def ServerStatus.value : ServerStatus → String
  | .stopped => "stopped"
  | .starting => "starting"
  | .running => "running"
  | .stopping => "stopping"
  | .crashed => "crashed"
  | .updating => "updating"
  | .degraded => "degraded"

/-- `HealthState` from `src/core/models.py`. -/
inductive HealthState where
  | ok
  | warn
  | fail
  deriving DecidableEq, Repr

/-- The `.value` string of a `HealthState` member. -/
def HealthState.value : HealthState → String
  | .ok => "ok"
  | .warn => "warn"
  | .fail => "fail"

/-- A value in an event's `data` dictionary. -/
inductive EValue where
  | str (s : String)
  | int (i : Int)
  deriving DecidableEq, Repr

/-- `Event` from `src/core/models.py` (timestamps as `Int`). -/
structure Event where
  type : String
  ts : Int
  server_id : Option String
  data : List (String × EValue)
  deriving DecidableEq, Repr

/-- `ServerConfig` from `src/core/models.py`.  Field defaults mirror the
pydantic defaults.  Log keywords and log lines are `List Char` so the
substring test is executable. -/
structure ServerConfig where
  id : String
  name : String := ""
  workdir : String := ""
  start_cmd : List String := []
  stop_cmd : Option (List String) := none
  env : List (String × String) := []
  restart_policy : String := "on-failure"
  max_restart_per_minute : Int := 6
  priority : Int := 50
  health_port : Option Int := none
  health_http_url : Option String := none
  log_important_keywords : List (List Char) :=
    [['E','R','R','O','R'], ['F','A','T','A','L'],
     ['p','a','n','i','c'], ['E','x','c','e','p','t','i','o','n']]
  deriving DecidableEq, Repr

/-- Python truthiness of `cfg.stop_cmd` (an `Optional[List[str]]`): `None`
and the empty list are falsy. -/
def ServerConfig.stop_cmd_truthy (c : ServerConfig) : Bool :=
  match c.stop_cmd with
  | none => false
  | some l => !l.isEmpty

/-- Python truthiness of `cfg.health_http_url` (an `Optional[str]`): `None`
and the empty string are falsy. -/
def ServerConfig.http_url_truthy (c : ServerConfig) : Bool :=
  match c.health_http_url with
  | none => false
  | some u => u != ""

/-- State of `ProcessAdapter` from `src/adapters/process_adapter.py`:
`self.proc` is either absent or a process with an optional returncode. -/
structure ProcessAdapter where
  proc : Option (Option Int)
  deriving DecidableEq, Repr

/-- `ProcessAdapter.is_running`: a process exists and its returncode is
still `None`. -/
def ProcessAdapter.is_running (p : ProcessAdapter) : Bool :=
  match p.proc with
  | some none => true
  | _ => false

/-- `ProcessAdapter.exit_code`: `None` if no process was ever started,
otherwise the process's returncode. -/
def ProcessAdapter.exit_code (p : ProcessAdapter) : Option Int :=
  match p.proc with
  | none => none
  | some rc => rc

/-- Errors that can propagate out of `ProcessAdapter.start` /
`ManagedServer.start`: the explicit `RuntimeError("process already running")`
and a failure of `asyncio.create_subprocess_exec` itself. -/
inductive StartErr where
  | alreadyRunning
  | spawnFailure
  deriving DecidableEq, Repr

/-- `ProcessAdapter.start`: raises `AlreadyRunning` if a previous process is
still alive; otherwise attempts the spawn, whose success is the oracle
`spawnOk`.  On a failed spawn `self.proc` keeps its previous value. -/
def ProcessAdapter.start (p : ProcessAdapter) (spawnOk : Bool) :
    Except StartErr ProcessAdapter :=
  if p.is_running then .error .alreadyRunning
  else if spawnOk then .ok ⟨some none⟩
  else .error .spawnFailure

/-- `ProcessAdapter.stop`: no-op if no live process; otherwise terminates
(escalating to kill on timeout — both paths end with the process dead) and
the process's returncode becomes the oracle `stopRc`. -/
def ProcessAdapter.stop (p : ProcessAdapter) (stopRc : Int) : ProcessAdapter :=
  if p.is_running then ⟨some (some stopRc)⟩ else p

/-- Python substring membership `kw in line` on `List Char`:
true iff `kw` occurs contiguously in `line`. -/
def listPrefixOf : List Char → List Char → Bool
  | [], _ => true
  | _ :: _, [] => false
  | a :: as, b :: bs => a == b && listPrefixOf as bs

/-- `kw in line` (Python's `str.__contains__`): `kw` is a prefix of some
suffix of `line`. -/
def strContains (kw : List Char) : List Char → Bool
  | [] => listPrefixOf kw []
  | l@(_ :: rest) => listPrefixOf kw l || strContains kw rest

/-- Mutable state of a `ManagedServer` from `src/core/manager.py`:
the referenced config, the owned `ProcessAdapter`, `status`, `health` and
`_restart_times`. -/
structure ManagedServer where
  cfg : ServerConfig
  proc : ProcessAdapter
  status : ServerStatus
  health : HealthState
  restart_times : List Int
  deriving DecidableEq, Repr

/-- `ManagedServer.__init__`: status `stopped`, health `ok`, empty restart
window, fresh `ProcessAdapter`. -/
def ManagedServer.init (c : ServerConfig) : ManagedServer :=
  { cfg := c, proc := ⟨none⟩, status := .stopped, health := .ok,
    restart_times := [] }

/-- `ManagedServer._emit`: build the `Event` put on the shared queue. -/
def ManagedServer.emit (s : ManagedServer) (now : Int) (type_ : String)
    (data : List (String × EValue)) : Event :=
  { type := type_, ts := now, server_id := some s.cfg.id, data := data }

/-- `ManagedServer._allow_restart`: prune `_restart_times` to the trailing
60 seconds (a timestamp `t` is kept iff `t >= now - 60`), then report whether
the remaining count is below `max_restart_per_minute`.  The pruning is a
side effect on the server state. -/
def ManagedServer.allow_restart (s : ManagedServer) (now : Int) :
    ManagedServer × Bool :=
  let minute_ago := now - 60
  let kept := s.restart_times.filter (fun t => minute_ago ≤ t)
  ({ s with restart_times := kept },
   decide ((kept.length : Int) < s.cfg.max_restart_per_minute))

/-- `ManagedServer._on_log_line`: emit `log_line` with the raw line, then
scan the configured keywords in order; on the first substring match emit one
`important_log` and `break`. -/
def ManagedServer.on_log_line (s : ManagedServer) (now : Int)
    (line : List Char) : List Event :=
  let base := s.emit now "log_line" [("line", .str (String.mk line))]
  match s.cfg.log_important_keywords.find? (fun kw => strContains kw line) with
  | some kw =>
      [base, s.emit now "important_log"
        [("line", .str (String.mk line)), ("keyword", .str (String.mk kw))]]
  | none => [base]

/-- `ManagedServer.start`: under the lock — no-op if the process is already
running; otherwise status→`starting` + `status` event, spawn (failure
propagates, leaving status at `starting`), status→`running` + `status`
event. -/
def ManagedServer.start (s : ManagedServer) (now : Int) (spawnOk : Bool)
    (reason : String) : ManagedServer × List Event × Option StartErr :=
  if s.proc.is_running then (s, [], none)
  else
    let s1 : ManagedServer := { s with status := .starting }
    let ev1 := s1.emit now "status"
      [("status", .str s1.status.value), ("reason", .str reason)]
    match s1.proc.start spawnOk with
    | .error e => (s1, [ev1], some e)
    | .ok p =>
        let s2 : ManagedServer := { s1 with proc := p, status := .running }
        let ev2 := s2.emit now "status"
          [("status", .str s2.status.value), ("reason", .str reason)]
        (s2, [ev1, ev2], none)

/-- `ManagedServer.stop`: under the lock — if the process is not running,
status→`stopped` + `status` event (idempotent); otherwise status→`stopping`
+ `status` event, an `info` event if a (truthy) `stop_cmd` is configured,
terminate the process, status→`stopped` + `status` event. -/
def ManagedServer.stop (s : ManagedServer) (now : Int) (stopRc : Int)
    (reason : String) : ManagedServer × List Event :=
  if !s.proc.is_running then
    let s1 : ManagedServer := { s with status := .stopped }
    (s1, [s1.emit now "status"
      [("status", .str s1.status.value), ("reason", .str reason)]])
  else
    let s1 : ManagedServer := { s with status := .stopping }
    let ev1 := s1.emit now "status"
      [("status", .str s1.status.value), ("reason", .str reason)]
    let infoEvs :=
      if s1.cfg.stop_cmd_truthy then
        [s1.emit now "info" [("msg", .str "stop_cmd not implemented yet")]]
      else []
    let s2 : ManagedServer :=
      { s1 with proc := s1.proc.stop stopRc, status := .stopped }
    let ev2 := s2.emit now "status"
      [("status", .str s2.status.value), ("reason", .str reason)]
    (s2, ev1 :: infoEvs ++ [ev2])

/-- `ManagedServer.restart`: `stop`, a settle delay, then `start`; the lock
is released between the phases, so the two phases see the two clock values
`now` and `now2`. -/
def ManagedServer.restart (s : ManagedServer) (now now2 stopRc : Int)
    (spawnOk : Bool) (reason : String) :
    ManagedServer × List Event × Option StartErr :=
  let r1 := s.stop now stopRc reason
  let r2 := r1.1.start now2 spawnOk reason
  (r2.1, r1.2 ++ r2.2.1, r2.2.2)

/-- `ManagedServer.tick_supervisor`: no-op while the process runs or never
ran; exit code 0 → status→`stopped` silently; non-zero → status→`crashed` +
`crash` event, then (unless `restart_policy == "never"`) prune the window,
either a rate-limited `warn` or record a timestamp and
`start(reason="auto_restart")`. -/
def ManagedServer.tick_supervisor (s : ManagedServer) (now : Int)
    (spawnOk : Bool) : ManagedServer × List Event × Option StartErr :=
  if s.proc.is_running then (s, [], none)
  else
    match s.proc.exit_code with
    | none => (s, [], none)
    | some code =>
      if code = 0 then ({ s with status := .stopped }, [], none)
      else
        let s1 : ManagedServer := { s with status := .crashed }
        let evCrash := s1.emit now "crash" [("exit_code", .int code)]
        if s1.cfg.restart_policy = "never" then (s1, [evCrash], none)
        else
          let ar := s1.allow_restart now
          if !ar.2 then
            (ar.1, [evCrash,
              ar.1.emit now "warn" [("msg", .str "restart rate limited")]],
             none)
          else
            let s3 : ManagedServer :=
              { ar.1 with restart_times := ar.1.restart_times ++ [now] }
            let r := s3.start now spawnOk "auto_restart"
            (r.1, evCrash :: r.2.1, r.2.2)

/-- `ManagedServer.tick_health`: fold the configured probes (results given
by the oracles `portOk`, `httpOk`) exactly as the source does, then emit a
`health` event only when the new state differs from the stored one. -/
def ManagedServer.tick_health (s : ManagedServer) (now : Int)
    (portOk httpOk : Bool) : ManagedServer × List Event :=
  let ok := true
  let ok := if s.cfg.health_port.isSome then ok && portOk else ok
  let ok := if s.cfg.http_url_truthy then ok && httpOk else ok
  let new_state := if ok then HealthState.ok else HealthState.fail
  if new_state ≠ s.health then
    let s1 : ManagedServer := { s with health := new_state }
    (s1, [s1.emit now "health" [("health", .str s1.health.value)]])
  else (s, [])

/-- `AppConfig` from `src/core/models.py` (the fields the manager core
reads). -/
structure AppConfig where
  client_id : String := "client-1"
  max_servers : Int := 25
  servers : List ServerConfig := []
  deriving DecidableEq, Repr

/-- Python's `l[:n]` for an `int` bound `n`: the first `n` elements when
`n ≥ 0`, and all but the last `|n|` elements when `n < 0`. -/
def pySliceTo (n : Int) (l : List α) : List α :=
  if 0 ≤ n then l.take n.toNat else l.take ((l.length + n).toNat)

/-- Insertion into an insertion-ordered Python dict: an existing key keeps
its position and gets the new value; a new key is appended. -/
def dictInsert (m : List (String × α)) (k : String) (v : α) :
    List (String × α) :=
  if (m.lookup k).isSome then
    m.map (fun kv => if kv.1 = k then (k, v) else kv)
  else m ++ [(k, v)]

/-- The truncated server-config list `cfg.servers[: cfg.max_servers]` that
`PolarManager.__init__` iterates; one `ManagedServer` is instantiated per
element. -/
def PolarManager.retainedConfigs (cfg : AppConfig) : List ServerConfig :=
  pySliceTo cfg.max_servers cfg.servers

/-- State of `PolarManager` from `src/core/manager.py`: the config and the
insertion-ordered `servers` dict. -/
structure PolarManager where
  client_id : String
  max_servers : Int
  servers : List (String × ManagedServer)
  deriving DecidableEq, Repr

/-- `PolarManager.__init__`: truncate the configured list to
`max_servers` entries and build the `servers` dict keyed by server id. -/
def PolarManager.init (cfg : AppConfig) : PolarManager :=
  { client_id := cfg.client_id,
    max_servers := cfg.max_servers,
    servers := (PolarManager.retainedConfigs cfg).foldl
      (fun m c => dictInsert m c.id (ManagedServer.init c)) [] }

/-- The body of `PolarManager.start_all`: iterate the servers in dict order
and `await s.start(reason="boot")`.  There is no exception handling, so the
first propagating error aborts the loop with the remaining entries
untouched.  `spawnOk` gives each server's spawn outcome by id. -/
def PolarManager.start_all_aux (now : Int) (spawnOk : String → Bool) :
    List (String × ManagedServer) →
    List (String × ManagedServer) × List Event × Option StartErr
  | [] => ([], [], none)
  | (sid, s) :: rest =>
    let r := s.start now (spawnOk sid) "boot"
    match r.2.2 with
    | some err => ((sid, r.1) :: rest, r.2.1, some err)
    | none =>
        let rr := PolarManager.start_all_aux now spawnOk rest
        ((sid, r.1) :: rr.1, r.2.1 ++ rr.2.1, rr.2.2)

/-- `PolarManager.start_all`. -/
def PolarManager.start_all (m : PolarManager) (now : Int)
    (spawnOk : String → Bool) : PolarManager × List Event × Option StartErr :=
  let r := PolarManager.start_all_aux now spawnOk m.servers
  ({ m with servers := r.1 }, r.2.1, r.2.2)

/-- Errors surfaced by `PolarManager.do_action`: `KeyError("unknown
server_id")`, `ValueError("unknown action")`, or an error propagating from
the dispatched operation. -/
inductive ActionErr where
  | notFound
  | invalidArgument
  | opFailed (e : StartErr)
  deriving DecidableEq, Repr

/-- External facts consumed by a dispatched action: the clock at each of the
(at most two) phases, the exit code produced by terminating the process and
the spawn outcome. -/
structure ActionOracle where
  now : Int
  now2 : Int
  stopRc : Int
  spawnOk : Bool
  deriving DecidableEq, Repr

/-- `PolarManager.do_action`: look the id up in the `servers` dict
(`if not thing` on a `ManagedServer` object is true exactly when `.get`
returned `None`), then dispatch on the action string; an unrecognized
action raises `ValueError` after touching nothing. -/
def PolarManager.do_action (m : PolarManager) (server_id action reason : String)
    (orc : ActionOracle) : PolarManager × List Event × Option ActionErr :=
  match m.servers.lookup server_id with
  | none => (m, [], some .notFound)
  | some s =>
    if action = "start" then
      let r := s.start orc.now orc.spawnOk reason
      ({ m with servers := dictInsert m.servers server_id r.1 },
       r.2.1, r.2.2.map .opFailed)
    else if action = "stop" then
      let r := s.stop orc.now orc.stopRc reason
      ({ m with servers := dictInsert m.servers server_id r.1 }, r.2, none)
    else if action = "restart" then
      let r := s.restart orc.now orc.now2 orc.stopRc orc.spawnOk reason
      ({ m with servers := dictInsert m.servers server_id r.1 },
       r.2.1, r.2.2.map .opFailed)
    else
      (m, [], some .invalidArgument)

/-!
## Interleaving model for `stop` racing `tick_supervisor`

`ManagedServer.stop` and `ManagedServer.tick_supervisor` run as asyncio
coroutines over the same server; control can change hands at every `await`
(lock acquisition, event emission, spawn, process termination).  `Conc`
captures the fields both coroutines touch, plus a program counter per
coroutine; each program counter value denotes the atomic code segment
between two `await` points of the source.  The precondition of the race is
an auto-restart detection: the owned process has already exited with a
non-zero code.  Branch outcomes that depend on data the race does not
change (restart policy, rate-limit verdict, spawn success) enter the state
as the constant oracle fields `policyNever`, `allowOk`, `spawnOk`.
-/

/-- Joint state of a `stop()` call and a `tick_supervisor()` call racing on
one `ManagedServer`.  `lock = some true` means the stop coroutine holds the
per-server lock, `some false` the tick coroutine.  Program counter `6`
means the coroutine has returned (normally or by a propagating
exception). -/
structure Conc where
  status : ServerStatus
  procRunning : Bool
  lock : Option Bool
  stopPc : Nat
  tickPc : Nat
  policyNever : Bool
  allowOk : Bool
  spawnOk : Bool
  deriving DecidableEq, Repr

/-- One atomic segment of `ManagedServer.stop`:
pc 0 — acquire the lock, test `is_running`, set `stopping`/`stopped`,
begin the `status` emit; pc 2 — the optional `info` emit; pc 3 — request
termination (`proc.stop` up to its internal `await`); pc 4 — the wait
completes (the process is now dead), set `stopped`, begin the final emit;
pc 5 — leave the `async with`, releasing the lock. -/
def Conc.stepStop (c : Conc) : Conc :=
  match c.stopPc with
  | 0 =>
    if c.lock = none then
      if c.procRunning then
        { c with lock := some true, status := .stopping, stopPc := 2 }
      else
        { c with lock := some true, status := .stopped, stopPc := 5 }
    else c
  | 2 => { c with stopPc := 3 }
  | 3 => { c with stopPc := 4 }
  | 4 => { c with procRunning := false, status := .stopped, stopPc := 5 }
  | 5 => { c with lock := none, stopPc := 6 }
  | _ => c

/-- One atomic segment of `ManagedServer.tick_supervisor` on a process that
has exited non-zero: pc 0 — the `is_running`/exit-code tests, set
`crashed`, begin the `crash` emit; pc 1 — the policy and rate-limit
branches (a rate-limited run emits `warn` and returns); pc 2 — `start`
acquires the lock, re-tests `is_running`, sets `starting`, begins the
`status` emit; pc 3 — `ProcessAdapter.start`'s already-running test, then
the spawn is issued (an `AlreadyRunning` error releases the lock and
propagates); pc 4 — the spawn resolves: on success the process is now
alive and status becomes `running`, on failure the exception releases the
lock and propagates; pc 5 — leave the `async with`, releasing the lock. -/
def Conc.stepTick (c : Conc) : Conc :=
  match c.tickPc with
  | 0 =>
    if c.procRunning then { c with tickPc := 6 }
    else { c with status := .crashed, tickPc := 1 }
  | 1 =>
    if c.policyNever then { c with tickPc := 6 }
    else if !c.allowOk then { c with tickPc := 6 }
    else { c with tickPc := 2 }
  | 2 =>
    if c.lock = none then
      if c.procRunning then { c with tickPc := 6 }
      else { c with lock := some false, status := .starting, tickPc := 3 }
    else c
  | 3 =>
    if c.procRunning then { c with lock := none, tickPc := 6 }
    else { c with tickPc := 4 }
  | 4 =>
    if c.spawnOk then { c with procRunning := true, status := .running, tickPc := 5 }
    else { c with lock := none, tickPc := 6 }
  | 5 => { c with lock := none, tickPc := 6 }
  | _ => c

/-- Scheduler step: `true` runs the stop coroutine, `false` the tick
coroutine; a blocked or finished coroutine leaves the state unchanged. -/
def Conc.step (b : Bool) (c : Conc) : Conc :=
  if b then c.stepStop else c.stepTick

/-- Run a whole schedule. -/
def Conc.run (sched : List Bool) (c : Conc) : Conc :=
  sched.foldl (fun c b => Conc.step b c) c

/-- Both coroutines have returned. -/
def Conc.bothDone (c : Conc) : Bool :=
  c.stopPc == 6 && c.tickPc == 6

/-- The consistency required of the final observable state: never
`is_running()` true with status `crashed`, never `is_running()` false with
status `running`. -/
def Conc.consistentB (c : Conc) : Bool :=
  !(c.procRunning && c.status == .crashed) &&
  !(!c.procRunning && c.status == .running)

/-- Initial state of the race: the server was `running`, its process has
exited with a non-zero code, no coroutine has started, the lock is free. -/
def initConc (pn ar so : Bool) : Conc :=
  { status := .running, procRunning := false, lock := none,
    stopPc := 0, tickPc := 0, policyNever := pn, allowOk := ar, spawnOk := so }

def concReachChunk0 : List Conc :=
  [Conc.mk ServerStatus.running false none 0 0 false false false,
   Conc.mk ServerStatus.running false none 0 0 false false true,
   Conc.mk ServerStatus.running false none 0 0 false true false,
   Conc.mk ServerStatus.running false none 0 0 false true true,
   Conc.mk ServerStatus.running false none 0 0 true false false,
   Conc.mk ServerStatus.running false none 0 0 true false true,
   Conc.mk ServerStatus.running false none 0 0 true true false,
   Conc.mk ServerStatus.running false none 0 0 true true true,
   Conc.mk ServerStatus.stopped false (some true) 5 0 false false false,
   Conc.mk ServerStatus.crashed false none 0 1 false false false,
   Conc.mk ServerStatus.stopped false (some true) 5 0 false false true,
   Conc.mk ServerStatus.crashed false none 0 1 false false true,
   Conc.mk ServerStatus.stopped false (some true) 5 0 false true false,
   Conc.mk ServerStatus.crashed false none 0 1 false true false,
   Conc.mk ServerStatus.stopped false (some true) 5 0 false true true,
   Conc.mk ServerStatus.crashed false none 0 1 false true true,
   Conc.mk ServerStatus.stopped false (some true) 5 0 true false false,
   Conc.mk ServerStatus.crashed false none 0 1 true false false,
   Conc.mk ServerStatus.stopped false (some true) 5 0 true false true,
   Conc.mk ServerStatus.crashed false none 0 1 true false true,
   Conc.mk ServerStatus.stopped false (some true) 5 0 true true false,
   Conc.mk ServerStatus.crashed false none 0 1 true true false,
   Conc.mk ServerStatus.stopped false (some true) 5 0 true true true,
   Conc.mk ServerStatus.crashed false none 0 1 true true true,
   Conc.mk ServerStatus.crashed false (some true) 5 1 false false false]

def concReachChunk1 : List Conc :=
  [Conc.mk ServerStatus.stopped false (some true) 5 1 false false false,
   Conc.mk ServerStatus.crashed false (some true) 5 1 false false true,
   Conc.mk ServerStatus.stopped false (some true) 5 1 false false true,
   Conc.mk ServerStatus.crashed false (some true) 5 1 false true false,
   Conc.mk ServerStatus.stopped false (some true) 5 1 false true false,
   Conc.mk ServerStatus.crashed false none 0 2 false true false,
   Conc.mk ServerStatus.crashed false (some true) 5 1 false true true,
   Conc.mk ServerStatus.stopped false (some true) 5 1 false true true,
   Conc.mk ServerStatus.crashed false none 0 2 false true true,
   Conc.mk ServerStatus.crashed false (some true) 5 1 true false false,
   Conc.mk ServerStatus.stopped false (some true) 5 1 true false false,
   Conc.mk ServerStatus.crashed false (some true) 5 1 true false true,
   Conc.mk ServerStatus.stopped false (some true) 5 1 true false true,
   Conc.mk ServerStatus.crashed false (some true) 5 1 true true false,
   Conc.mk ServerStatus.stopped false (some true) 5 1 true true false,
   Conc.mk ServerStatus.crashed false (some true) 5 1 true true true,
   Conc.mk ServerStatus.stopped false (some true) 5 1 true true true,
   Conc.mk ServerStatus.stopped false none 6 0 false false false,
   Conc.mk ServerStatus.crashed false none 6 1 false false false,
   Conc.mk ServerStatus.crashed false none 6 6 false false false,
   Conc.mk ServerStatus.crashed false (some true) 5 6 false false false,
   Conc.mk ServerStatus.stopped false none 6 1 false false false,
   Conc.mk ServerStatus.stopped false none 6 6 false false false,
   Conc.mk ServerStatus.stopped false (some true) 5 6 false false false,
   Conc.mk ServerStatus.crashed false none 0 6 false false false]

def concReachChunk2 : List Conc :=
  [Conc.mk ServerStatus.stopped false none 6 0 false false true,
   Conc.mk ServerStatus.crashed false none 6 1 false false true,
   Conc.mk ServerStatus.crashed false none 6 6 false false true,
   Conc.mk ServerStatus.crashed false (some true) 5 6 false false true,
   Conc.mk ServerStatus.stopped false none 6 1 false false true,
   Conc.mk ServerStatus.stopped false none 6 6 false false true,
   Conc.mk ServerStatus.stopped false (some true) 5 6 false false true,
   Conc.mk ServerStatus.crashed false none 0 6 false false true,
   Conc.mk ServerStatus.stopped false none 6 0 false true false,
   Conc.mk ServerStatus.crashed false none 6 1 false true false,
   Conc.mk ServerStatus.crashed false none 6 2 false true false,
   Conc.mk ServerStatus.crashed false (some true) 5 2 false true false,
   Conc.mk ServerStatus.stopped false none 6 1 false true false,
   Conc.mk ServerStatus.starting false none 6 6 false true false,
   Conc.mk ServerStatus.starting false (some false) 6 4 false true false,
   Conc.mk ServerStatus.starting false (some false) 6 3 false true false,
   Conc.mk ServerStatus.stopped false none 6 2 false true false,
   Conc.mk ServerStatus.stopped false (some true) 5 2 false true false,
   Conc.mk ServerStatus.starting false (some false) 0 3 false true false,
   Conc.mk ServerStatus.starting false (some false) 0 4 false true false,
   Conc.mk ServerStatus.stopped false none 6 6 false true false,
   Conc.mk ServerStatus.stopped false (some true) 5 6 false true false,
   Conc.mk ServerStatus.starting false none 0 6 false true false,
   Conc.mk ServerStatus.stopped false none 6 0 false true true,
   Conc.mk ServerStatus.crashed false none 6 1 false true true]

def concReachChunk3 : List Conc :=
  [Conc.mk ServerStatus.crashed false none 6 2 false true true,
   Conc.mk ServerStatus.crashed false (some true) 5 2 false true true,
   Conc.mk ServerStatus.stopped false none 6 1 false true true,
   Conc.mk ServerStatus.running true none 6 6 false true true,
   Conc.mk ServerStatus.running true (some false) 6 5 false true true,
   Conc.mk ServerStatus.starting false (some false) 6 4 false true true,
   Conc.mk ServerStatus.starting false (some false) 6 3 false true true,
   Conc.mk ServerStatus.stopped false none 6 2 false true true,
   Conc.mk ServerStatus.stopped false (some true) 5 2 false true true,
   Conc.mk ServerStatus.starting false (some false) 0 3 false true true,
   Conc.mk ServerStatus.starting false (some false) 0 4 false true true,
   Conc.mk ServerStatus.running true (some false) 0 5 false true true,
   Conc.mk ServerStatus.stopped false none 6 6 false true true,
   Conc.mk ServerStatus.stopped false (some true) 5 6 false true true,
   Conc.mk ServerStatus.stopping true (some true) 4 6 false true true,
   Conc.mk ServerStatus.stopping true (some true) 3 6 false true true,
   Conc.mk ServerStatus.stopping true (some true) 2 6 false true true,
   Conc.mk ServerStatus.running true none 0 6 false true true,
   Conc.mk ServerStatus.stopped false none 6 0 true false false,
   Conc.mk ServerStatus.crashed false none 6 1 true false false,
   Conc.mk ServerStatus.crashed false none 6 6 true false false,
   Conc.mk ServerStatus.crashed false (some true) 5 6 true false false,
   Conc.mk ServerStatus.stopped false none 6 1 true false false,
   Conc.mk ServerStatus.stopped false none 6 6 true false false,
   Conc.mk ServerStatus.stopped false (some true) 5 6 true false false]

def concReachChunk4 : List Conc :=
  [Conc.mk ServerStatus.crashed false none 0 6 true false false,
   Conc.mk ServerStatus.stopped false none 6 0 true false true,
   Conc.mk ServerStatus.crashed false none 6 1 true false true,
   Conc.mk ServerStatus.crashed false none 6 6 true false true,
   Conc.mk ServerStatus.crashed false (some true) 5 6 true false true,
   Conc.mk ServerStatus.stopped false none 6 1 true false true,
   Conc.mk ServerStatus.stopped false none 6 6 true false true,
   Conc.mk ServerStatus.stopped false (some true) 5 6 true false true,
   Conc.mk ServerStatus.crashed false none 0 6 true false true,
   Conc.mk ServerStatus.stopped false none 6 0 true true false,
   Conc.mk ServerStatus.crashed false none 6 1 true true false,
   Conc.mk ServerStatus.crashed false none 6 6 true true false,
   Conc.mk ServerStatus.crashed false (some true) 5 6 true true false,
   Conc.mk ServerStatus.stopped false none 6 1 true true false,
   Conc.mk ServerStatus.stopped false none 6 6 true true false,
   Conc.mk ServerStatus.stopped false (some true) 5 6 true true false,
   Conc.mk ServerStatus.crashed false none 0 6 true true false,
   Conc.mk ServerStatus.stopped false none 6 0 true true true,
   Conc.mk ServerStatus.crashed false none 6 1 true true true,
   Conc.mk ServerStatus.crashed false none 6 6 true true true,
   Conc.mk ServerStatus.crashed false (some true) 5 6 true true true,
   Conc.mk ServerStatus.stopped false none 6 1 true true true,
   Conc.mk ServerStatus.stopped false none 6 6 true true true,
   Conc.mk ServerStatus.stopped false (some true) 5 6 true true true,
   Conc.mk ServerStatus.crashed false none 0 6 true true true]

/-- The set of configurations reachable from the eight initial states of
the stop/tick race (one per oracle combination), under every scheduler
choice.  The accompanying lemmas verify everything that is used about this
list: it contains the initial states, it is closed under both coroutines'
steps, and every configuration in it with both coroutines finished
satisfies the consistency predicate. -/
def concReachSet : List Conc :=
  concReachChunk0 ++ concReachChunk1 ++ concReachChunk2 ++
  concReachChunk3 ++ concReachChunk4

set_option maxRecDepth 10000 in
set_option maxRecDepth 10000 in
lemma initConc_mem_concReachSet : ∀ pn ar so : Bool, initConc pn ar so ∈ concReachSet := by
  decide

set_option maxRecDepth 10000 in
lemma concReachSet_closed :
    ∀ c ∈ concReachSet, ∀ b : Bool, Conc.step b c ∈ concReachSet := by
  decide

set_option maxRecDepth 10000 in
lemma concReachSet_final_consistent :
    ∀ c ∈ concReachSet, Conc.bothDone c = true → Conc.consistentB c = true := by
  decide

lemma run_mem_concReachSet (sched : List Bool) :
    ∀ c ∈ concReachSet, Conc.run sched c ∈ concReachSet := by
  induction sched with
  | nil => intro c hc; simpa [Conc.run] using hc
  | cons b l ih =>
      intro c hc
      have hstep := concReachSet_closed c hc b
      simpa [Conc.run, List.foldl_cons] using ih _ hstep

/-- C4: for every interleaving of a `ManagedServer.stop` call with a
concurrent `tick_supervisor` auto-restart detection on the same server
(every schedule of the two coroutines' atomic segments, under every
combination of restart policy, rate-limit verdict and spawn outcome), once
both calls have returned the final state is consistent: never
`is_running()` true with status `crashed`, and never `is_running()` false
with status `running`. -/
theorem C4_stop_race_consistency (pn ar so : Bool) (sched : List Bool)
    (h : Conc.bothDone (Conc.run sched (initConc pn ar so)) = true) :
    Conc.consistentB (Conc.run sched (initConc pn ar so)) = true := by
  have hmem : Conc.run sched (initConc pn ar so) ∈ concReachSet :=
    run_mem_concReachSet sched _ (initConc_mem_concReachSet pn ar so)
  exact concReachSet_final_consistent _ hmem h

/-- Witness for C4: a concrete completed schedule — the tick coroutine
restarts the crashed server, then the stop coroutine stops it. -/
theorem C4_stop_race_consistency_witness :
    Conc.consistentB (Conc.run
      [false, false, false, false, false, false,
       true, true, true, true, true] (initConc false true true)) = true :=
  C4_stop_race_consistency false true true
    [false, false, false, false, false, false,
     true, true, true, true, true] (by decide)

/-- The `ServerConfig` of the §8 scenario: id "a", `restart_policy`
"always", `max_restart_per_minute` 6. -/
def cfgScenarioA : ServerConfig :=
  { id := "a", restart_policy := "always", max_restart_per_minute := 6 }

/-- Server "a" after its started process exited with code 1: status still
`running`, process exited, empty restart window. -/
def serverScenarioA : ManagedServer :=
  { ManagedServer.init cfgScenarioA with
    status := .running, proc := ⟨some (some 1)⟩ }

/-- C3: on server "a" (`restart_policy` "always", `max_restart_per_minute`
6) whose process exited with code 1, the next `tick_supervisor` runs the
transitions `crashed` → `starting` → `running` and emits exactly one
`crash` event carrying the exit code followed by exactly two `status`
events (`starting`, then `running`), in that order. -/
theorem C3_crash_tick_scenario :
    serverScenarioA.tick_supervisor 5 true =
      ({ serverScenarioA with
          status := .running, proc := ⟨some none⟩, restart_times := [5] },
       [{ type := "crash", ts := 5, server_id := some "a",
          data := [("exit_code", .int 1)] },
        { type := "status", ts := 5, server_id := some "a",
          data := [("status", .str "starting"), ("reason", .str "auto_restart")] },
        { type := "status", ts := 5, server_id := some "a",
          data := [("status", .str "running"), ("reason", .str "auto_restart")] }],
       none) := by
  decide

/-- C6: `start` on a server whose process is already running is a no-op —
same state, no events, no error — and a second `start` immediately after
any successful `start` is such a no-op, so the pair is observably
equivalent to the first `start` alone. -/
theorem C6_start_noop_when_running (s : ManagedServer) (now now2 : Int)
    (spawnOk spawnOk2 : Bool) (reason reason2 : String) :
    (s.proc.is_running = true → s.start now spawnOk reason = (s, [], none)) ∧
    (∀ s1 evs, s.start now spawnOk reason = (s1, evs, none) →
      s1.start now2 spawnOk2 reason2 = (s1, [], none)) := by
  constructor
  · intro h
    simp [ManagedServer.start, h]
  · intro s1 evs h
    by_cases hr : s.proc.is_running
    · simp [ManagedServer.start, hr] at h
      obtain ⟨h1, -, -⟩ := h
      simp [ManagedServer.start, ← h1, hr]
    · simp [ManagedServer.start, hr, ProcessAdapter.start] at h
      by_cases hs : spawnOk
      · simp [hs] at h
        obtain ⟨h1, -, -⟩ := h
        simp [ManagedServer.start, ← h1, ProcessAdapter.is_running]
      · simp [hs] at h

/-- Witness for C6 at a concrete running server. -/
theorem C6_start_noop_when_running_witness :
    ({ ManagedServer.init cfgScenarioA with proc := ⟨some none⟩ } :
        ManagedServer).start 0 true "boot" =
      ({ ManagedServer.init cfgScenarioA with proc := ⟨some none⟩ }, [], none) :=
  (C6_start_noop_when_running
    { ManagedServer.init cfgScenarioA with proc := ⟨some none⟩ }
    0 0 true true "boot" "boot").1 (by decide)

/-- Replace the configured restart policy, leaving everything else. -/
def ManagedServer.setPolicy (s : ManagedServer) (p : String) : ManagedServer :=
  { s with cfg := { s.cfg with restart_policy := p } }

/-- C10: in `tick_supervisor`, auto-restart suppression happens only for
the exact policy string "never" — any two policies other than "never"
(including unrecognized strings) produce identical behaviour in every
observable component — and an exit with code 0 yields status `stopped`
with no `crash` event and no restart under any policy. -/
theorem C10_policy_dispatch (s : ManagedServer) (now : Int) (spawnOk : Bool)
    (p1 p2 : String) (h1 : p1 ≠ "never") (h2 : p2 ≠ "never") :
    (((s.setPolicy p1).tick_supervisor now spawnOk).1.status =
        ((s.setPolicy p2).tick_supervisor now spawnOk).1.status ∧
      ((s.setPolicy p1).tick_supervisor now spawnOk).1.proc =
        ((s.setPolicy p2).tick_supervisor now spawnOk).1.proc ∧
      ((s.setPolicy p1).tick_supervisor now spawnOk).1.restart_times =
        ((s.setPolicy p2).tick_supervisor now spawnOk).1.restart_times ∧
      ((s.setPolicy p1).tick_supervisor now spawnOk).1.health =
        ((s.setPolicy p2).tick_supervisor now spawnOk).1.health ∧
      ((s.setPolicy p1).tick_supervisor now spawnOk).2.1 =
        ((s.setPolicy p2).tick_supervisor now spawnOk).2.1 ∧
      ((s.setPolicy p1).tick_supervisor now spawnOk).2.2 =
        ((s.setPolicy p2).tick_supervisor now spawnOk).2.2) ∧
    (s.proc.exit_code = some 0 →
      s.tick_supervisor now spawnOk = ({ s with status := .stopped }, [], none)) := by
  constructor
  · rcases s with ⟨cfg, ⟨proc⟩, status, health, times⟩
    match proc with
    | none =>
        simp [ManagedServer.setPolicy, ManagedServer.tick_supervisor,
          ProcessAdapter.is_running, ProcessAdapter.exit_code]
    | some none =>
        simp [ManagedServer.setPolicy, ManagedServer.tick_supervisor,
          ProcessAdapter.is_running]
    | some (some c) =>
        by_cases hc : c = 0
        · simp [ManagedServer.setPolicy, ManagedServer.tick_supervisor,
            ProcessAdapter.is_running, ProcessAdapter.exit_code, hc]
        · simp only [ManagedServer.setPolicy, ManagedServer.tick_supervisor,
            ProcessAdapter.is_running, ProcessAdapter.exit_code,
            ManagedServer.allow_restart, ManagedServer.start,
            ManagedServer.emit, ProcessAdapter.start]
          cases spawnOk <;> simp [hc, h1, h2] <;> split_ifs <;> simp
  · intro h0
    rcases s with ⟨cfg, ⟨proc⟩, status, health, times⟩
    match proc with
    | none => simp [ProcessAdapter.exit_code] at h0
    | some none => simp [ProcessAdapter.exit_code] at h0
    | some (some c) =>
        simp [ProcessAdapter.exit_code] at h0
        simp [ManagedServer.tick_supervisor, ProcessAdapter.is_running,
          ProcessAdapter.exit_code, h0]

/-- Witness for C10: policies "always" and an unrecognized string behave
identically on a crashed server, and a zero exit is silent. -/
theorem C10_policy_dispatch_witness :
    (({ ManagedServer.init cfgScenarioA with proc := ⟨some (some 0)⟩ } :
        ManagedServer).tick_supervisor 0 true =
      ({ ManagedServer.init cfgScenarioA with
          proc := ⟨some (some 0)⟩, status := .stopped }, [], none)) :=
  (C10_policy_dispatch
    { ManagedServer.init cfgScenarioA with proc := ⟨some (some 0)⟩ }
    0 true "always" "sometimes" (by decide) (by decide)).2 (by decide)

/-- The spec's description of the computed health: the logical AND of the
configured probes, defaulting to pass when none is configured. -/
def probesAnd (c : ServerConfig) (portOk httpOk : Bool) : Bool :=
  (if c.health_port.isSome then portOk else true) &&
  (if c.http_url_truthy then httpOk else true)

/-- The health state a `tick_health` evaluation computes, per the spec. -/
def computedHealth (c : ServerConfig) (portOk httpOk : Bool) : HealthState :=
  if probesAnd c portOk httpOk then HealthState.ok else HealthState.fail

/-- `tick_health` in closed form: compare the computed health with the
stored one; emit one `health` event exactly on a change. -/
lemma tick_health_eq (s : ManagedServer) (now : Int) (portOk httpOk : Bool) :
    s.tick_health now portOk httpOk =
      if computedHealth s.cfg portOk httpOk = s.health then (s, [])
      else ({ s with health := computedHealth s.cfg portOk httpOk },
            [{ type := "health", ts := now, server_id := some s.cfg.id,
               data := [("health",
                 .str (computedHealth s.cfg portOk httpOk).value)] }]) := by
  unfold ManagedServer.tick_health computedHealth probesAnd ManagedServer.emit
  by_cases hp : s.cfg.health_port.isSome <;>
    by_cases hh : s.cfg.http_url_truthy <;>
    cases portOk <;> cases httpOk <;>
    simp only [hp, hh, if_true, if_false, Bool.true_and, Bool.and_true,
      Bool.and_false, Bool.false_and, ite_true, ite_false, Bool.and_self] <;>
    split_ifs <;> first | rfl | tauto

/-- C7: every `tick_health` evaluation stores the AND of the configured
probes (pass when none is configured) as the new health, emits a `health`
event exactly when that state differs from the stored state of the
previous evaluation, and a second evaluation with the same probe results
emits nothing — never two events for consecutive identical results. -/
theorem C7_health_events_on_change (s : ManagedServer) (now now2 : Int)
    (portOk httpOk : Bool) :
    (s.tick_health now portOk httpOk).1.health =
      computedHealth s.cfg portOk httpOk ∧
    (s.tick_health now portOk httpOk).2 =
      (if computedHealth s.cfg portOk httpOk = s.health then []
       else [{ type := "health", ts := now, server_id := some s.cfg.id,
               data := [("health",
                 .str (computedHealth s.cfg portOk httpOk).value)] }]) ∧
    (((s.tick_health now portOk httpOk).2 = []) ↔
      computedHealth s.cfg portOk httpOk = s.health) ∧
    ((s.tick_health now portOk httpOk).1.tick_health now2 portOk httpOk).2 = [] := by
  constructor
  · rw [tick_health_eq]
    by_cases h : computedHealth s.cfg portOk httpOk = s.health <;> simp [h]
  constructor
  · rw [tick_health_eq]
    by_cases h : computedHealth s.cfg portOk httpOk = s.health <;> simp [h]
  constructor
  · rw [tick_health_eq]
    by_cases h : computedHealth s.cfg portOk httpOk = s.health <;> simp [h]
  · rw [tick_health_eq, tick_health_eq]
    by_cases h : computedHealth s.cfg portOk httpOk = s.health <;> simp [h]

/-- `List.find?` returns the first element satisfying the predicate: the
list splits into a prefix of non-matching elements, the found element, and
a tail. -/
lemma find_first_split {α : Type} (p : α → Bool) :
    ∀ (l : List α) (a : α), l.find? p = some a →
      ∃ l1 l2, l = l1 ++ a :: l2 ∧ p a = true ∧ ∀ x ∈ l1, p x = false := by
  intro l
  induction l with
  | nil => intro a h; simp [List.find?] at h
  | cons b bs ih =>
      intro a h
      by_cases hb : p b
      · rw [List.find?_cons_of_pos _ hb] at h
        obtain rfl : b = a := by simpa using h
        exact ⟨[], bs, by simp, hb, by simp⟩
      · rw [List.find?_cons_of_neg _ (by simpa using hb)] at h
        obtain ⟨l1, l2, hsplit, hpa, hpre⟩ := ih a h
        refine ⟨b :: l1, l2, by simp [hsplit], hpa, ?_⟩
        intro x hx
        rcases List.mem_cons.mp hx with rfl | hx
        · simpa using hb
        · exact hpre x hx

/-- C8: for every log line, the output callback emits exactly one
`log_line` event (carrying the raw line, first), at most one
`important_log` event — exactly one when some configured keyword is a
substring of the line — and the keyword carried by an `important_log`
event is the first matching keyword in configured order: every keyword
before it in the list does not match. -/
theorem C8_log_callback (s : ManagedServer) (now : Int) (line : List Char) :
    ((s.on_log_line now line).filter (fun e => e.type = "log_line")).length = 1 ∧
    ((s.on_log_line now line).filter
      (fun e => e.type = "important_log")).length ≤ 1 ∧
    (s.on_log_line now line).head? =
      some (s.emit now "log_line" [("line", .str (String.mk line))]) ∧
    ((∃ k ∈ s.cfg.log_important_keywords, strContains k line = true) →
      ((s.on_log_line now line).filter
        (fun e => e.type = "important_log")).length = 1) ∧
    (∀ kw, s.emit now "important_log"
        [("line", .str (String.mk line)), ("keyword", .str (String.mk kw))] ∈
          s.on_log_line now line →
      ∃ l1 l2, s.cfg.log_important_keywords = l1 ++ kw :: l2 ∧
        strContains kw line = true ∧ ∀ k ∈ l1, strContains k line = false) := by
  cases hf : s.cfg.log_important_keywords.find? (fun kw => strContains kw line) with
  | none =>
      have hnone := List.find?_eq_none.mp hf
      refine ⟨?_, ?_, ?_, ?_, ?_⟩
      · simp [ManagedServer.on_log_line, hf, ManagedServer.emit]
      · simp [ManagedServer.on_log_line, hf, ManagedServer.emit]
      · simp [ManagedServer.on_log_line, hf]
      · rintro ⟨k, hk, hks⟩
        exact absurd hks (by simpa using hnone k hk)
      · intro kw hkw
        simp [ManagedServer.on_log_line, hf, ManagedServer.emit] at hkw
  | some kw0 =>
      refine ⟨?_, ?_, ?_, ?_, ?_⟩
      · simp [ManagedServer.on_log_line, hf, ManagedServer.emit]
      · simp [ManagedServer.on_log_line, hf, ManagedServer.emit]
      · simp [ManagedServer.on_log_line, hf]
      · intro _
        simp [ManagedServer.on_log_line, hf, ManagedServer.emit]
      · intro kw hkw
        have hkw0 : kw = kw0 := by
          simp [ManagedServer.on_log_line, hf, ManagedServer.emit] at hkw
          exact congrArg String.data hkw
        subst hkw0
        obtain ⟨l1, l2, hsplit, hpa, hpre⟩ := find_first_split _ _ _ hf
        exact ⟨l1, l2, hsplit, hpa, hpre⟩

/-- Witness for C8: the default keyword list on a line containing both
"ERROR" and "FATAL" — the reported keyword is "ERROR", the first match. -/
theorem C8_log_callback_witness :
    ∃ l1 l2, (ManagedServer.init cfgScenarioA).cfg.log_important_keywords =
        l1 ++ ['E','R','R','O','R'] :: l2 ∧
      strContains ['E','R','R','O','R']
        ['E','R','R','O','R',' ','F','A','T','A','L'] = true ∧
      ∀ k ∈ l1, strContains k ['E','R','R','O','R',' ','F','A','T','A','L'] = false :=
  (C8_log_callback (ManagedServer.init cfgScenarioA) 0
    ['E','R','R','O','R',' ','F','A','T','A','L']).2.2.2.2
    ['E','R','R','O','R'] (by decide)

/-- C5: `do_action` fails with the NotFound condition (`KeyError`) iff the
server id is not in the managed-server map; for a known id it fails with
the InvalidArgument condition (`ValueError`) iff the action string is none
of start/stop/restart; and in either error case the manager state — every
`ManagedServer`'s status, health, restart window and process handle — is
unchanged and no event is emitted. -/
theorem C5_do_action_errors (m : PolarManager) (server_id action reason : String)
    (orc : ActionOracle) :
    ((m.do_action server_id action reason orc).2.2 = some .notFound ↔
      m.servers.lookup server_id = none) ∧
    ((m.servers.lookup server_id).isSome →
      ((m.do_action server_id action reason orc).2.2 = some .invalidArgument ↔
        (action ≠ "start" ∧ action ≠ "stop" ∧ action ≠ "restart"))) ∧
    (((m.do_action server_id action reason orc).2.2 = some .notFound ∨
      (m.do_action server_id action reason orc).2.2 = some .invalidArgument) →
      ((m.do_action server_id action reason orc).1 = m ∧
       (m.do_action server_id action reason orc).2.1 = [])) := by
  cases hl : m.servers.lookup server_id with
  | none =>
      refine ⟨by simp [PolarManager.do_action, hl], ?_, ?_⟩
      · intro hs; simp at hs
      · intro _; simp [PolarManager.do_action, hl]
  | some s =>
      by_cases ha1 : action = "start"
      · refine ⟨?_, ?_, ?_⟩
        · simp only [PolarManager.do_action, hl, ha1, if_true, ite_true]
          constructor
          · intro h
            cases he : (s.start orc.now orc.spawnOk reason).2.2 <;>
              simp [he] at h
          · intro h; simp at h
        · intro _
          simp only [PolarManager.do_action, hl, ha1, if_true, ite_true]
          constructor
          · intro h
            cases he : (s.start orc.now orc.spawnOk reason).2.2 <;>
              simp [he] at h
          · rintro ⟨h, -, -⟩; exact absurd rfl h
        · rintro (h | h) <;>
            · simp only [PolarManager.do_action, hl, ha1, if_true, ite_true] at h
              cases he : (s.start orc.now orc.spawnOk reason).2.2 <;>
                simp [he] at h
      · by_cases ha2 : action = "stop"
        · refine ⟨?_, ?_, ?_⟩
          · simp only [PolarManager.do_action, hl, ha1, ha2, if_false,
              ite_false, if_true, ite_true]
            constructor
            · intro h; simp at h
            · intro h; simp at h
          · intro _
            simp only [PolarManager.do_action, hl, ha1, ha2, if_false,
              ite_false, if_true, ite_true]
            constructor
            · intro h; simp at h
            · rintro ⟨-, h, -⟩; exact absurd rfl h
          · rintro (h | h) <;>
              simp [PolarManager.do_action, hl, ha1, ha2] at h
        · by_cases ha3 : action = "restart"
          · refine ⟨?_, ?_, ?_⟩
            · simp only [PolarManager.do_action, hl, ha1, ha2, ha3, if_false,
                ite_false, if_true, ite_true]
              constructor
              · intro h
                cases he : (s.restart orc.now orc.now2 orc.stopRc orc.spawnOk
                    reason).2.2 <;> simp [he] at h
              · intro h; simp at h
            · intro _
              simp only [PolarManager.do_action, hl, ha1, ha2, ha3, if_false,
                ite_false, if_true, ite_true]
              constructor
              · intro h
                cases he : (s.restart orc.now orc.now2 orc.stopRc orc.spawnOk
                    reason).2.2 <;> simp [he] at h
              · rintro ⟨-, -, h⟩; exact absurd rfl h
            · rintro (h | h) <;>
                · simp only [PolarManager.do_action, hl, ha1, ha2, ha3,
                    if_false, ite_false, if_true, ite_true] at h
                  cases he : (s.restart orc.now orc.now2 orc.stopRc orc.spawnOk
                      reason).2.2 <;> simp [he] at h
          · refine ⟨?_, ?_, ?_⟩
            · simp only [PolarManager.do_action, hl, ha1, ha2, ha3, if_false,
                ite_false]
              constructor
              · intro h; simp at h
              · intro h; simp at h
            · intro _
              simp [PolarManager.do_action, hl, ha1, ha2, ha3]
            · intro _
              simp [PolarManager.do_action, hl, ha1, ha2, ha3]

/-- Witness for C5: an unknown id fails with NotFound on a concrete
manager. -/
theorem C5_do_action_errors_witness :
    ((PolarManager.init { servers := [cfgScenarioA] }).do_action
      "zzz" "start" "" ⟨0, 0, 0, true⟩).2.2 = some .notFound :=
  (C5_do_action_errors (PolarManager.init { servers := [cfgScenarioA] })
    "zzz" "start" "" ⟨0, 0, 0, true⟩).1.mpr (by decide)


/-- A second configured server, id "b". -/
def cfgIdB : ServerConfig := { id := "b" }

/-- A manager over servers "a" and "b". -/
def mgrAB : PolarManager :=
  PolarManager.init { servers := [cfgScenarioA, cfgIdB] }

/-- Spawn oracle under which server "a"'s spawn raises and every other
spawn succeeds. -/
def spawnFailsA : String → Bool := fun sid => sid != "a"

/-- Counterexample to C1: with servers "a" and "b" and a spawn failure on
"a", `start_all` propagates the error and server "b" is never started — it
keeps its initial state and not a single event is emitted for it.  This
contradicts the claim that one server's start failure does not prevent the
remaining servers from being started. -/
theorem C1_counterexample :
    (mgrAB.start_all 0 spawnFailsA).2.2 = some .spawnFailure ∧
    (mgrAB.start_all 0 spawnFailsA).1.servers.lookup "b" =
      some (ManagedServer.init cfgIdB) ∧
    ((mgrAB.start_all 0 spawnFailsA).2.1.filter
      (fun e => e.server_id = some "b")).length = 0 := by
  decide

/-- Unfolding `start_all_aux` at a server whose start raises. -/
lemma start_all_aux_cons_err {now : Int} {f : String → Bool} {qid : String}
    {qs : ManagedServer} {rest : List (String × ManagedServer)} {err : StartErr}
    (hq : (qs.start now (f qid) "boot").2.2 = some err) :
    PolarManager.start_all_aux now f ((qid, qs) :: rest) =
      ((qid, (qs.start now (f qid) "boot").1) :: rest,
       (qs.start now (f qid) "boot").2.1, some err) := by
  simp only [PolarManager.start_all_aux]
  rw [hq]

/-- Unfolding `start_all_aux` at a server whose start returns normally. -/
lemma start_all_aux_cons_ok {now : Int} {f : String → Bool} {qid : String}
    {qs : ManagedServer} {rest : List (String × ManagedServer)}
    (hq : (qs.start now (f qid) "boot").2.2 = none) :
    PolarManager.start_all_aux now f ((qid, qs) :: rest) =
      ((qid, (qs.start now (f qid) "boot").1) ::
        (PolarManager.start_all_aux now f rest).1,
       (qs.start now (f qid) "boot").2.1 ++
        (PolarManager.start_all_aux now f rest).2.1,
       (PolarManager.start_all_aux now f rest).2.2) := by
  simp only [PolarManager.start_all_aux]
  rw [hq]

/-- Every event `start` emits is a `status` event carrying the given
reason. -/
lemma start_events_reason (s : ManagedServer) (now : Int) (so : Bool)
    (reason : String) :
    ∀ e ∈ (s.start now so reason).2.1,
      e.type = "status" ∧ ("reason", EValue.str reason) ∈ e.data := by
  intro e he
  by_cases hr : s.proc.is_running
  · simp [ManagedServer.start, hr] at he
  · simp only [ManagedServer.start, hr, ProcessAdapter.start, if_false,
      ite_false, Bool.false_eq_true] at he
    by_cases hs : so <;> simp [hs] at he <;>
      rcases he with rfl | rfl <;> simp [ManagedServer.emit]

/-- C1 amended: `start_all` starts the managed servers sequentially with
reason "boot", but a failure of one server's start propagates out of the
loop: the servers before the failing one are started, the failing server
keeps its partially mutated state, and every server after it is left
untouched with no event emitted for it. -/
theorem C1_amended (now : Int) (f : String → Bool)
    (pre post : List (String × ManagedServer)) (sid : String)
    (s : ManagedServer) (err : StartErr)
    (hpre : (PolarManager.start_all_aux now f pre).2.2 = none)
    (hfail : (s.start now (f sid) "boot").2.2 = some err) :
    (PolarManager.start_all_aux now f (pre ++ (sid, s) :: post) =
      ((PolarManager.start_all_aux now f pre).1 ++
        (sid, (s.start now (f sid) "boot").1) :: post,
       (PolarManager.start_all_aux now f pre).2.1 ++
        (s.start now (f sid) "boot").2.1,
       some err)) ∧
    (∀ l : List (String × ManagedServer),
      ∀ e ∈ (PolarManager.start_all_aux now f l).2.1,
        e.type = "status" → ("reason", EValue.str "boot") ∈ e.data) := by
  constructor
  · induction pre with
    | nil =>
        rw [List.nil_append, start_all_aux_cons_err hfail]
        simp [PolarManager.start_all_aux]
    | cons q pre' ih =>
        obtain ⟨qid, qs⟩ := q
        have hq : (qs.start now (f qid) "boot").2.2 = none := by
          cases hq2 : (qs.start now (f qid) "boot").2.2 with
          | none => rfl
          | some e =>
              rw [start_all_aux_cons_err hq2] at hpre
              simp at hpre
        rw [start_all_aux_cons_ok hq] at hpre
        rw [List.cons_append, start_all_aux_cons_ok hq,
          start_all_aux_cons_ok hq, ih (by simpa using hpre)]
        simp [List.append_assoc]
  · intro l
    induction l with
    | nil =>
        intro e he
        simp [PolarManager.start_all_aux] at he
    | cons q rest ih =>
        obtain ⟨qid, qs⟩ := q
        intro e he htype
        cases hq : (qs.start now (f qid) "boot").2.2 with
        | some e2 =>
            rw [start_all_aux_cons_err hq] at he
            exact (start_events_reason qs now (f qid) "boot" e he).2
        | none =>
            rw [start_all_aux_cons_ok hq] at he
            rcases List.mem_append.mp he with h | h
            · exact (start_events_reason qs now (f qid) "boot" e h).2
            · exact ih e h htype

/-- Witness for the amended C1: the concrete two-server run — "a" fails to
spawn, "b" is left untouched, the error propagates. -/
theorem C1_amended_witness :
    PolarManager.start_all_aux 0 spawnFailsA
      ([] ++ ("a", ManagedServer.init cfgScenarioA) ::
        [("b", ManagedServer.init cfgIdB)]) =
      ((PolarManager.start_all_aux 0 spawnFailsA []).1 ++
        ("a", ((ManagedServer.init cfgScenarioA).start 0
          (spawnFailsA "a") "boot").1) :: [("b", ManagedServer.init cfgIdB)],
       (PolarManager.start_all_aux 0 spawnFailsA []).2.1 ++
        ((ManagedServer.init cfgScenarioA).start 0
          (spawnFailsA "a") "boot").2.1,
       some .spawnFailure) :=
  (C1_amended 0 spawnFailsA [] [("b", ManagedServer.init cfgIdB)] "a"
    (ManagedServer.init cfgScenarioA) .spawnFailure (by decide) (by decide)).1

/-- `List.lookup` succeeds exactly on the keys of the association list. -/
lemma lookup_isSome_iff {α : Type} (m : List (String × α)) (k : String) :
    (m.lookup k).isSome ↔ k ∈ m.map Prod.fst := by
  induction m with
  | nil => simp [List.lookup]
  | cons q rest ih =>
      obtain ⟨qk, qv⟩ := q
      by_cases h : k = qk
      · simp [List.lookup, h]
      · have hb : (k == qk) = false := by simpa using h
        simp [List.lookup, hb, h, ih]

/-- Replacing the value at a key leaves the key list unchanged. -/
lemma map_fst_replace {α : Type} (m : List (String × α)) (k : String) (v : α) :
    (m.map (fun kv => if kv.1 = k then (k, v) else kv)).map Prod.fst =
      m.map Prod.fst := by
  induction m with
  | nil => simp
  | cons q rest ih => by_cases h : q.1 = k <;> simp [h, ih]

/-- The key list of a dict after insertion: unchanged when the key was
present, extended by the key otherwise. -/
lemma dictInsert_keys {α : Type} (m : List (String × α)) (k : String) (v : α) :
    (dictInsert m k v).map Prod.fst =
      if (m.lookup k).isSome then m.map Prod.fst
      else m.map Prod.fst ++ [k] := by
  unfold dictInsert
  split_ifs with h
  · exact map_fst_replace m k v
  · simp

/-- Key membership after a dict insertion. -/
lemma mem_keys_dictInsert {α : Type} (m : List (String × α)) (k k' : String)
    (v : α) :
    k' ∈ (dictInsert m k v).map Prod.fst ↔
      (k' ∈ m.map Prod.fst ∨ k' = k) := by
  rw [dictInsert_keys]
  split_ifs with h
  · constructor
    · exact Or.inl
    · rintro (h' | rfl)
      · exact h'
      · exact (lookup_isSome_iff m k').mp h
  · simp

/-- Dict insertion preserves distinctness of keys. -/
lemma nodup_keys_dictInsert {α : Type} (m : List (String × α)) (k : String)
    (v : α) (h : (m.map Prod.fst).Nodup) :
    ((dictInsert m k v).map Prod.fst).Nodup := by
  rw [dictInsert_keys]
  split_ifs with hs
  · exact h
  · have hk : k ∉ m.map Prod.fst := fun hmem =>
      absurd ((lookup_isSome_iff m k).mpr hmem) hs
    simp [List.nodup_append, h, hk]

/-- Building the server dict keeps the keys distinct. -/
lemma foldl_keys_nodup :
    ∀ (l : List ServerConfig) (m : List (String × ManagedServer)),
      (m.map Prod.fst).Nodup →
      ((l.foldl (fun m c => dictInsert m c.id (ManagedServer.init c)) m).map
        Prod.fst).Nodup := by
  intro l
  induction l with
  | nil => intro m h; simpa using h
  | cons c cs ih => intro m h; exact ih _ (nodup_keys_dictInsert _ _ _ h)

/-- The keys of the built server dict are the initial keys plus the ids of
the folded configs. -/
lemma foldl_mem_keys :
    ∀ (l : List ServerConfig) (m : List (String × ManagedServer)) (k : String),
      (k ∈ ((l.foldl (fun m c => dictInsert m c.id (ManagedServer.init c))
          m).map Prod.fst) ↔
        (k ∈ m.map Prod.fst ∨ k ∈ l.map ServerConfig.id)) := by
  intro l
  induction l with
  | nil => intro m k; simp
  | cons c cs ih =>
      intro m k
      rw [List.foldl_cons, ih, mem_keys_dictInsert]
      simp [or_assoc]

/-- C9 amended: for every configuration with a non-negative `max_servers`,
construction instantiates one `ManagedServer` per entry of the server list
truncated to its first `max_servers` entries — hence at most `max_servers`
instances — and the resulting map holds exactly one entry per distinct id
among the retained entries (keys distinct, a key present iff it is a
retained id). -/
theorem C9_amended (cfg : AppConfig) (h : 0 ≤ cfg.max_servers) :
    PolarManager.retainedConfigs cfg =
      cfg.servers.take cfg.max_servers.toNat ∧
    ((PolarManager.retainedConfigs cfg).length : Int) ≤ cfg.max_servers ∧
    ((PolarManager.init cfg).servers.map Prod.fst).Nodup ∧
    (∀ sid, ((PolarManager.init cfg).servers.lookup sid).isSome ↔
      sid ∈ (PolarManager.retainedConfigs cfg).map ServerConfig.id) := by
  have h1 : PolarManager.retainedConfigs cfg =
      cfg.servers.take cfg.max_servers.toNat := by
    simp [PolarManager.retainedConfigs, pySliceTo, h]
  refine ⟨h1, ?_, ?_, ?_⟩
  · rw [h1]
    have hlen := List.length_take_le cfg.max_servers.toNat cfg.servers
    omega
  · exact foldl_keys_nodup _ [] (by simp)
  · intro sid
    show ((List.foldl _ [] _).lookup sid).isSome ↔ _
    rw [lookup_isSome_iff, foldl_mem_keys]
    simp

/-- The configuration refuting C9 as stated: a negative `max_servers`
(pydantic places no lower bound on the `int` field). -/
def cfgNegMax : AppConfig :=
  { max_servers := -1, servers := [cfgScenarioA, cfgIdB] }

/-- Counterexample to C9: with `max_servers = -1` and two configured
servers, Python's slice `servers[:-1]` retains one entry, so one
`ManagedServer` is instantiated — more than `max_servers` — and the
retained list is not the first `max_servers` entries of the configured
list. -/
theorem C9_counterexample :
    ¬ (((PolarManager.init cfgNegMax).servers.length : Int) ≤
        cfgNegMax.max_servers) ∧
    ¬ (((PolarManager.retainedConfigs cfgNegMax).length : Int) ≤
        cfgNegMax.max_servers) ∧
    PolarManager.retainedConfigs cfgNegMax ≠
      cfgNegMax.servers.take cfgNegMax.max_servers.toNat := by
  decide

/-- Witness for the amended C9 at a concrete two-server configuration. -/
theorem C9_amended_witness :
    ((PolarManager.retainedConfigs
        { servers := [cfgScenarioA, cfgIdB] }).length : Int) ≤
      ({ servers := [cfgScenarioA, cfgIdB] } : AppConfig).max_servers :=
  (C9_amended { servers := [cfgScenarioA, cfgIdB] } (by decide)).2.1

/-- One crash detection: the server's process has (again) exited with
code 1, and `tick_supervisor` runs at time `now` with a succeeding
spawn. -/
def crashTickOne (s : ManagedServer) (now : Int) : ManagedServer × List Event :=
  let r := ManagedServer.tick_supervisor { s with proc := ⟨some (some 1)⟩ } now true
  (r.1, r.2.1)

/-- A sequence of crash detections at the given times. -/
def runCrashes : ManagedServer → List Int → ManagedServer × List Event
  | s, [] => (s, [])
  | s, n :: ns =>
    let r := crashTickOne s n
    let rr := runCrashes r.1 ns
    (rr.1, r.2 ++ rr.2)

/-- An auto-restart attempt: the `status` event `start` emits when it
begins starting with reason "auto_restart". -/
def isAutoRestartAttempt (e : Event) : Bool :=
  e.type == "status" &&
  e.data.lookup "status" == some (EValue.str "starting") &&
  e.data.lookup "reason" == some (EValue.str "auto_restart")

/-- A rate-limit `warn` event. -/
def isRateLimitWarn (e : Event) : Bool := e.type == "warn"

/-- The `crash` event of a crash detection at time `now` (exit code 1). -/
def crashEv (sid : String) (now : Int) : Event :=
  { type := "crash", ts := now, server_id := some sid,
    data := [("exit_code", .int 1)] }

/-- The `status starting` event of an auto-restart. -/
def startingEv (sid : String) (now : Int) : Event :=
  { type := "status", ts := now, server_id := some sid,
    data := [("status", .str "starting"), ("reason", .str "auto_restart")] }

/-- The `status running` event of an auto-restart. -/
def runningEv (sid : String) (now : Int) : Event :=
  { type := "status", ts := now, server_id := some sid,
    data := [("status", .str "running"), ("reason", .str "auto_restart")] }

/-- The rate-limit `warn` event. -/
def warnEv (sid : String) (now : Int) : Event :=
  { type := "warn", ts := now, server_id := some sid,
    data := [("msg", .str "restart rate limited")] }

@[simp] lemma autoAttempt_crashEv (sid : String) (now : Int) :
    isAutoRestartAttempt (crashEv sid now) = false := by
  simp [isAutoRestartAttempt, crashEv]

@[simp] lemma autoAttempt_startingEv (sid : String) (now : Int) :
    isAutoRestartAttempt (startingEv sid now) = true := by
  simp [isAutoRestartAttempt, startingEv, List.lookup]

@[simp] lemma autoAttempt_runningEv (sid : String) (now : Int) :
    isAutoRestartAttempt (runningEv sid now) = false := by
  simp [isAutoRestartAttempt, runningEv, List.lookup]

@[simp] lemma autoAttempt_warnEv (sid : String) (now : Int) :
    isAutoRestartAttempt (warnEv sid now) = false := by
  simp [isAutoRestartAttempt, warnEv]

@[simp] lemma rateWarn_crashEv (sid : String) (now : Int) :
    isRateLimitWarn (crashEv sid now) = false := by
  simp [isRateLimitWarn, crashEv]

@[simp] lemma rateWarn_startingEv (sid : String) (now : Int) :
    isRateLimitWarn (startingEv sid now) = false := by
  simp [isRateLimitWarn, startingEv]

@[simp] lemma rateWarn_runningEv (sid : String) (now : Int) :
    isRateLimitWarn (runningEv sid now) = false := by
  simp [isRateLimitWarn, runningEv]

@[simp] lemma rateWarn_warnEv (sid : String) (now : Int) :
    isRateLimitWarn (warnEv sid now) = true := by
  simp [isRateLimitWarn, warnEv]

/-- A crash detection in closed form (policy not "never", spawn
succeeding): prune the window; below the limit, record the time and
restart (`crash`, `status starting`, `status running`); at the limit,
`crash` then `warn` with no restart. -/
lemma crashTickOne_eq (s : ManagedServer) (now : Int)
    (hp : s.cfg.restart_policy ≠ "never") :
    crashTickOne s now =
      if ((s.restart_times.filter (fun t => now - 60 ≤ t)).length : Int) <
          s.cfg.max_restart_per_minute then
        ({ s with
            status := .running
            proc := ⟨some none⟩
            restart_times :=
              s.restart_times.filter (fun t => now - 60 ≤ t) ++ [now] },
         [crashEv s.cfg.id now, startingEv s.cfg.id now, runningEv s.cfg.id now])
      else
        ({ s with
            status := .crashed
            proc := ⟨some (some 1)⟩
            restart_times := s.restart_times.filter (fun t => now - 60 ≤ t) },
         [crashEv s.cfg.id now, warnEv s.cfg.id now]) := by
  by_cases hlen : s.cfg.max_restart_per_minute ≤
      ((s.restart_times.filter (fun t => now ≤ t + 60)).length : Int)
  · simp [crashTickOne, ManagedServer.tick_supervisor, ManagedServer.allow_restart,
      ManagedServer.start, ManagedServer.emit, ProcessAdapter.start,
      ProcessAdapter.is_running, ProcessAdapter.exit_code, ServerStatus.value,
      hp, hlen, crashEv, startingEv, runningEv, warnEv]
    rw [if_neg (not_lt.mpr hlen)]
  · simp [crashTickOne, ManagedServer.tick_supervisor, ManagedServer.allow_restart,
      ManagedServer.start, ManagedServer.emit, ProcessAdapter.start,
      ProcessAdapter.is_running, ProcessAdapter.exit_code, ServerStatus.value,
      hp, hlen, crashEv, startingEv, runningEv, warnEv]
    rw [if_pos (not_le.mp hlen)]

/-- The C2 server: `max_restart_per_minute` 3, restart policy `p`. -/
def c2server (sid p : String) : ManagedServer :=
  ManagedServer.init
    { id := sid, restart_policy := p, max_restart_per_minute := 3 }

/-- Intermediate states of the C2 run (same config throughout). -/
def c2mid (sid p : String) (st : ServerStatus) (pr : Option (Option Int))
    (ts : List Int) : ManagedServer :=
  { cfg := { id := sid, restart_policy := p, max_restart_per_minute := 3 },
    proc := ⟨pr⟩, status := st, health := .ok, restart_times := ts }

/-- `crashTickOne` on a C2 intermediate state. -/
lemma c2_tick (sid p : String) (st : ServerStatus) (pr : Option (Option Int))
    (ts : List Int) (now : Int) (hp : p ≠ "never") :
    crashTickOne (c2mid sid p st pr ts) now =
      if ((ts.filter (fun t => now - 60 ≤ t)).length : Int) < 3 then
        (c2mid sid p .running (some none)
          (ts.filter (fun t => now - 60 ≤ t) ++ [now]),
         [crashEv sid now, startingEv sid now, runningEv sid now])
      else
        (c2mid sid p .crashed (some (some 1))
          (ts.filter (fun t => now - 60 ≤ t)),
         [crashEv sid now, warnEv sid now]) := by
  rw [crashTickOne_eq _ _ hp]
  rfl

/-- C2: with `max_restart_per_minute = 3` and a policy other than "never",
four crash detections within one 60-second window produce exactly three
auto-restart attempts and exactly one rate-limit `warn`; the first crash
time stays in the window through the fourth detection, and once strictly
more than 60 seconds have elapsed past it, a fifth detection prunes it and
restarts again. -/
theorem C2_rate_limiter (p : String) (hp : p ≠ "never") (sid : String)
    (n1 n2 n3 n4 n5 : Int) (h12 : n1 ≤ n2) (h23 : n2 ≤ n3) (h34 : n3 ≤ n4)
    (_h45 : n4 ≤ n5) (hwin : n4 < n1 + 60) (hpast : n1 + 60 < n5) :
    ((runCrashes (c2server sid p) [n1, n2, n3, n4]).2.filter
        isAutoRestartAttempt).length = 3 ∧
    ((runCrashes (c2server sid p) [n1, n2, n3, n4]).2.filter
        isRateLimitWarn).length = 1 ∧
    n1 ∈ (runCrashes (c2server sid p) [n1, n2, n3, n4]).1.restart_times ∧
    n1 ∉ (crashTickOne (runCrashes (c2server sid p) [n1, n2, n3, n4]).1
        n5).1.restart_times ∧
    ((crashTickOne (runCrashes (c2server sid p) [n1, n2, n3, n4]).1
        n5).2.filter isAutoRestartAttempt).length = 1 := by
  have hf1 : ([] : List Int).filter (fun t => n1 - 60 ≤ t) = [] := by
    simp
  have hf2 : [n1].filter (fun t => n2 - 60 ≤ t) = [n1] := by
    simp
    omega
  have hf3 : [n1, n2].filter (fun t => n3 - 60 ≤ t) = [n1, n2] := by
    simp
    constructor <;> omega
  have hf4 : [n1, n2, n3].filter (fun t => n4 - 60 ≤ t) = [n1, n2, n3] := by
    simp
    refine ⟨by omega, by omega, by omega⟩
  have e1 : crashTickOne (c2mid sid p .stopped none []) n1 =
      (c2mid sid p .running (some none) [n1],
       [crashEv sid n1, startingEv sid n1, runningEv sid n1]) := by
    rw [c2_tick sid p _ _ _ _ hp, hf1, if_pos (by norm_num)]
    simp
  have e2 : crashTickOne (c2mid sid p .running (some none) [n1]) n2 =
      (c2mid sid p .running (some none) [n1, n2],
       [crashEv sid n2, startingEv sid n2, runningEv sid n2]) := by
    rw [c2_tick sid p _ _ _ _ hp, hf2, if_pos (by norm_num)]
    simp
  have e3 : crashTickOne (c2mid sid p .running (some none) [n1, n2]) n3 =
      (c2mid sid p .running (some none) [n1, n2, n3],
       [crashEv sid n3, startingEv sid n3, runningEv sid n3]) := by
    rw [c2_tick sid p _ _ _ _ hp, hf3, if_pos (by norm_num)]
    simp
  have e4 : crashTickOne (c2mid sid p .running (some none) [n1, n2, n3]) n4 =
      (c2mid sid p .crashed (some (some 1)) [n1, n2, n3],
       [crashEv sid n4, warnEv sid n4]) := by
    rw [c2_tick sid p _ _ _ _ hp, hf4, if_neg (by norm_num)]
  have hall : runCrashes (c2server sid p) [n1, n2, n3, n4] =
      (c2mid sid p .crashed (some (some 1)) [n1, n2, n3],
       [crashEv sid n1, startingEv sid n1, runningEv sid n1,
        crashEv sid n2, startingEv sid n2, runningEv sid n2,
        crashEv sid n3, startingEv sid n3, runningEv sid n3,
        crashEv sid n4, warnEv sid n4]) := by
    have hs0 : c2server sid p = c2mid sid p .stopped none [] := rfl
    rw [hs0]
    simp only [runCrashes, e1, e2, e3, e4]
    simp
  have hf5 : [n1, n2, n3].filter (fun t => n5 - 60 ≤ t) =
      [n2, n3].filter (fun t => n5 - 60 ≤ t) := by
    rw [show ([n1, n2, n3] : List Int) = n1 :: [n2, n3] from rfl,
      List.filter_cons]
    simp [show ¬ ((n5 - 60 : Int) ≤ n1) by omega]
  have hlen5 : (([n2, n3].filter (fun t => n5 - 60 ≤ t)).length : Int) < 3 := by
    have := List.length_filter_le (fun t => decide ((n5 - 60 : Int) ≤ t)) [n2, n3]
    simp only [List.length_cons, List.length_nil] at this
    omega
  have e5 : crashTickOne (c2mid sid p .crashed (some (some 1)) [n1, n2, n3]) n5 =
      (c2mid sid p .running (some none)
        ([n2, n3].filter (fun t => n5 - 60 ≤ t) ++ [n5]),
       [crashEv sid n5, startingEv sid n5, runningEv sid n5]) := by
    rw [c2_tick sid p _ _ _ _ hp, hf5, if_pos hlen5]
  refine ⟨?_, ?_, ?_, ?_, ?_⟩
  · rw [hall]
    simp
  · rw [hall]
    simp
  · rw [hall]
    simp [c2mid]
  · rw [hall, e5]
    simp only [c2mid]
    intro hmem
    simp only [List.mem_append, List.mem_filter, List.mem_cons,
      List.mem_singleton, List.not_mem_nil, decide_eq_true_eq] at hmem
    rcases hmem with ⟨-, hge⟩ | heq | hfalse
    · omega
    · omega
    · exact hfalse
  · rw [hall, e5]
    simp

/-- Witness for C2 at concrete crash times 0, 1, 2, 3 and a fifth crash at
time 100. -/
theorem C2_rate_limiter_witness :
    ((runCrashes (c2server "a" "always") [0, 1, 2, 3]).2.filter
        isAutoRestartAttempt).length = 3 :=
  (C2_rate_limiter "always" (by decide) "a" 0 1 2 3 100 (by decide) (by decide)
    (by decide) (by decide) (by decide) (by decide)).1
